import Mathlib

/-!
Verification of the dersp relay server against its specification.

The development shallowly embeds the Rust sources:
* `codec` crate (`encode.rs`, `decode.rs`, and the derive expansion from
  `codec-derive`): byte-level encoders and decoders over `List Nat` byte lists;
* `dersp/src/proto/data.rs`: `FrameType`, `Frame`, and the frame body structs;
* `dersp/src/service.rs`: `DerpService`, `ServiceCommand`, the command loop and
  `add_new_client`;
* `dersp/src/client.rs`: the per-connection reader and writer steps.

Bytes are natural numbers (values 0..255 on real inputs); machine `u32`
arithmetic appears as explicit `% 2 ^ 32` bounds where overflow matters.
Fallible operations return `Option` or `Except`. Async channel sends are
modelled by emitted `(sink, command)` lists plus an `alive` predicate telling
which sink receivers still exist.
-/

/-! ## Codec primitives (codec/src/decode.rs, codec/src/encode.rs) -/

/-- `ReadBuffer::fill_buf` for `&[u8]`: split off exactly `n` bytes, or fail
with `DecodeError` if fewer are available. -/
def fill_buf (n : Nat) (l : List Nat) : Option (List Nat × List Nat) :=
  if l.length < n then none else some (l.take n, l.drop n)

/-- `u8::decode`: one byte. -/
def decode_u8 : List Nat → Option (Nat × List Nat)
  | [] => none
  | b :: rest => some (b, rest)

/-- `u32::decode`: four bytes, big endian. -/
def decode_u32 : List Nat → Option (Nat × List Nat)
  | b0 :: b1 :: b2 :: b3 :: rest =>
      some (b0 * 2 ^ 24 + b1 * 2 ^ 16 + b2 * 2 ^ 8 + b3, rest)
  | _ => none

/-- `u32::encode`: `to_be_bytes`, big endian. -/
def encode_u32 (n : Nat) : List Nat :=
  [n / 2 ^ 24 % 256, n / 2 ^ 16 % 256, n / 2 ^ 8 % 256, n % 256]

/-- `Vec<u8>::decode`: decode single bytes until the read buffer is empty. -/
def decode_vec_u8 : List Nat → Option (List Nat × List Nat)
  | [] => some ([], [])
  | b :: rest =>
      match decode_vec_u8 rest with
      | some (v, r) => some (b :: v, r)
      | none => none

/-- `SizeWrapper<u32, T>::encode`: reserve four bytes, encode the inner value,
backpatch the byte count. `u32::try_from(total).unwrap()` panics when the inner
encoding does not fit in a `u32`; that is the `none` case. -/
def size_wrapper_encode (inner : List Nat) : Option (List Nat) :=
  if inner.length < 2 ^ 32 then some (encode_u32 inner.length ++ inner) else none

/-- `SizeWrapper<u32, T>::decode`: read the length, bound a sub-slice of that
length, run the inner decoder on it and require it to consume the sub-slice
exactly; leftovers are a `DecodeError`. -/
def size_wrapper_decode {T : Type} (dec : List Nat → Option (T × List Nat))
    (l : List Nat) : Option (T × List Nat) :=
  match decode_u32 l with
  | none => none
  | some (size, r) =>
    match fill_buf size r with
    | none => none
    | some (sub, rest) =>
      match dec sub with
      | none => none
      | some (v, left) => if left = [] then some (v, rest) else none

/-! ## Public keys

Modelled from the spec: the `crate::crypto` module (`crypto.rs`, holding
`PublicKey` and `SecretKey`) is not among the sources under `src/`; per the
spec a `PublicKey` is a 32-byte opaque identifier whose wire form is the 32
bytes verbatim, which the in-repo test `test_server_key_frame` corroborates
(a 32-zero-byte key contributes exactly 32 zero bytes to the frame body). -/

/-- A public key: a byte list, 32 bytes long on every valid value. -/
abbrev PublicKey := List Nat

/-- Modelled from the spec: `PublicKey` encodes as its 32 bytes verbatim. -/
def encode_public_key (pk : PublicKey) : List Nat := pk

/-- Modelled from the spec: `PublicKey` decodes by reading exactly 32 bytes. -/
def decode_public_key (l : List Nat) : Option (PublicKey × List Nat) :=
  fill_buf 32 l

/-! ## Frame types (dersp/src/proto/data.rs) -/

/-- The `FrameType` enum, with the derive's catch-all `Unkonow` variant
carrying the unrecognized tag byte. -/
inductive FrameType where
  | ServerKey
  | ClientInfo
  | ServerInfo
  | SendPacket
  | RecvPacket
  | KeepAlive
  | NotePreferred
  | PeerGone
  | PeerPresent
  | ForwardPacket
  | WatchConns
  | ClosePeer
  | Ping
  | Pong
  | ControlMessage
  | Unkonow (b : Nat)
  deriving DecidableEq, Repr

/-- The `#[tag(..)]` byte of each variant; `Unkonow` encodes its stored byte
(the derive's `extract_unknown` clause). -/
def FrameType.tagByte : FrameType → Nat
  | .ServerKey => 0x01
  | .ClientInfo => 0x02
  | .ServerInfo => 0x03
  | .SendPacket => 0x04
  | .RecvPacket => 0x05
  | .KeepAlive => 0x06
  | .NotePreferred => 0x07
  | .PeerGone => 0x08
  | .PeerPresent => 0x09
  | .ForwardPacket => 0x0A
  | .WatchConns => 0x10
  | .ClosePeer => 0x11
  | .Ping => 0x12
  | .Pong => 0x13
  | .ControlMessage => 0x14
  | .Unkonow b => b

/-- The derive-generated tag match of `FrameType::decode`: first matching
`#[tag(..)]` literal wins, the `_unknown` binder catches everything else. -/
def FrameType.ofByte (b : Nat) : FrameType :=
  if b = 0x01 then .ServerKey
  else if b = 0x02 then .ClientInfo
  else if b = 0x03 then .ServerInfo
  else if b = 0x04 then .SendPacket
  else if b = 0x05 then .RecvPacket
  else if b = 0x06 then .KeepAlive
  else if b = 0x07 then .NotePreferred
  else if b = 0x08 then .PeerGone
  else if b = 0x09 then .PeerPresent
  else if b = 0x0A then .ForwardPacket
  else if b = 0x10 then .WatchConns
  else if b = 0x11 then .ClosePeer
  else if b = 0x12 then .Ping
  else if b = 0x13 then .Pong
  else if b = 0x14 then .ControlMessage
  else .Unkonow b

/-- `FrameType::decode`: read the one-byte tag, then match. -/
def FrameType.decode (l : List Nat) : Option (FrameType × List Nat) :=
  match decode_u8 l with
  | none => none
  | some (tag, rest) => some (FrameType.ofByte tag, rest)

/-- `FrameType::encode`: the tag byte; the `#[unknown]` field encodes no
bytes. -/
def FrameType.encode (ft : FrameType) : List Nat := [ft.tagByte]

/-- The set of recognized tag bytes (every `#[tag(..)]` literal). -/
def known_tags : List Nat :=
  [0x01, 0x02, 0x03, 0x04, 0x05, 0x06, 0x07, 0x08, 0x09, 0x0A,
   0x10, 0x11, 0x12, 0x13, 0x14]

/-- `FrameType::get_frame_type`: peek at the first byte of the buffer, decode
it as a tag, with `Unkonow(0)` for an empty buffer or a decoder error. -/
def get_frame_type (buf : List Nat) : FrameType :=
  match buf.head? with
  | some first_byte =>
    match FrameType.decode [first_byte] with
    | some (ft, _) => ft
    | none => .Unkonow 0
  | none => .Unkonow 0

/-! ## Frame bodies (dersp/src/proto/data.rs) -/

/-- `ServerKey` body: 8-byte magic then the public key. -/
structure ServerKey where
  magic : List Nat
  public_key : PublicKey
  deriving DecidableEq, Repr

def ServerKey.encode (x : ServerKey) : List Nat :=
  x.magic ++ encode_public_key x.public_key

def ServerKey.decode (l : List Nat) : Option (ServerKey × List Nat) :=
  match fill_buf 8 l with
  | none => none
  | some (magic, r1) =>
    match decode_public_key r1 with
    | none => none
    | some (pk, r2) => some (⟨magic, pk⟩, r2)

/-- `ClientInfo` body: public key, 24-byte nonce, ciphertext to end of body. -/
structure ClientInfo where
  public_key : PublicKey
  nonce : List Nat
  cipher_text : List Nat
  deriving DecidableEq, Repr

def ClientInfo.encode (x : ClientInfo) : List Nat :=
  encode_public_key x.public_key ++ x.nonce ++ x.cipher_text

def ClientInfo.decode (l : List Nat) : Option (ClientInfo × List Nat) :=
  match decode_public_key l with
  | none => none
  | some (pk, r1) =>
    match fill_buf 24 r1 with
    | none => none
    | some (nonce, r2) =>
      match decode_vec_u8 r2 with
      | none => none
      | some (ct, r3) => some (⟨pk, nonce, ct⟩, r3)

/-- `ServerInfo` body: opaque bytes to end of body. -/
structure ServerInfo where
  data : List Nat
  deriving DecidableEq, Repr

def ServerInfo.encode (x : ServerInfo) : List Nat := x.data

def ServerInfo.decode (l : List Nat) : Option (ServerInfo × List Nat) :=
  match decode_vec_u8 l with
  | none => none
  | some (d, r) => some (⟨d⟩, r)

/-- `SendPacket` body: target key then payload to end of body. -/
structure SendPacket where
  target : PublicKey
  payload : List Nat
  deriving DecidableEq, Repr

def SendPacket.encode (x : SendPacket) : List Nat :=
  encode_public_key x.target ++ x.payload

def SendPacket.decode (l : List Nat) : Option (SendPacket × List Nat) :=
  match decode_public_key l with
  | none => none
  | some (t, r1) =>
    match decode_vec_u8 r1 with
    | none => none
    | some (p, r2) => some (⟨t, p⟩, r2)

/-- `RecvPacket` body as declared in the source: a field named `target`, then
the payload (the doc comment on tag `0x05` calls the key field the source
key). -/
structure RecvPacket where
  target : PublicKey
  payload : List Nat
  deriving DecidableEq, Repr

def RecvPacket.encode (x : RecvPacket) : List Nat :=
  encode_public_key x.target ++ x.payload

def RecvPacket.decode (l : List Nat) : Option (RecvPacket × List Nat) :=
  match decode_public_key l with
  | none => none
  | some (t, r1) =>
    match decode_vec_u8 r1 with
    | none => none
    | some (p, r2) => some (⟨t, p⟩, r2)

/-- `ForwardPacket` body: source key, target key, payload. -/
structure ForwardPacket where
  source : PublicKey
  target : PublicKey
  payload : List Nat
  deriving DecidableEq, Repr

def ForwardPacket.encode (x : ForwardPacket) : List Nat :=
  encode_public_key x.source ++ encode_public_key x.target ++ x.payload

def ForwardPacket.decode (l : List Nat) : Option (ForwardPacket × List Nat) :=
  match decode_public_key l with
  | none => none
  | some (s, r1) =>
    match decode_public_key r1 with
    | none => none
    | some (t, r2) =>
      match decode_vec_u8 r2 with
      | none => none
      | some (p, r3) => some (⟨s, t, p⟩, r3)

/-- `PeerPresent` body: one public key. -/
structure PeerPresent where
  public_key : PublicKey
  deriving DecidableEq, Repr

def PeerPresent.encode (x : PeerPresent) : List Nat :=
  encode_public_key x.public_key

def PeerPresent.decode (l : List Nat) : Option (PeerPresent × List Nat) :=
  match decode_public_key l with
  | none => none
  | some (pk, r) => some (⟨pk⟩, r)

/-- `WatchConns` body: opaque bytes to end of body (empty on the wire). -/
structure WatchConns where
  data : List Nat
  deriving DecidableEq, Repr

def WatchConns.encode (x : WatchConns) : List Nat := x.data

def WatchConns.decode (l : List Nat) : Option (WatchConns × List Nat) :=
  match decode_vec_u8 l with
  | none => none
  | some (d, r) => some (⟨d⟩, r)

/-! ## Frames (dersp/src/proto/data.rs `Frame<T>`) -/

/-- `Frame<T>`: a frame type followed by a `SizeWrapper<u32, T>` body; the
wrapper is represented by the length-prefixing in `Frame.encode` and
`Frame.decode`. -/
structure Frame (T : Type) where
  frame_type : FrameType
  inner : T
  deriving DecidableEq, Repr

/-- Derive-generated `Frame<T>::encode`: frame type, then the size-wrapped
body. -/
def Frame.encode {T : Type} (encT : T → List Nat) (f : Frame T) :
    Option (List Nat) :=
  match size_wrapper_encode (encT f.inner) with
  | none => none
  | some wrapped => some (FrameType.encode f.frame_type ++ wrapped)

/-- Derive-generated `Frame<T>::decode`: frame type, then the size-wrapped
body. -/
def Frame.decode {T : Type} (decT : List Nat → Option (T × List Nat))
    (l : List Nat) : Option (Frame T × List Nat) :=
  match FrameType.decode l with
  | none => none
  | some (ft, r) =>
    match size_wrapper_decode decT r with
    | none => none
    | some (v, rest) => some (⟨ft, v⟩, rest)

/-! ## Routing service (dersp/src/service.rs) -/

/-- A sink handle: the identity of one writer task's bounded command queue. -/
abbrev Sink := Nat

/-- `HashMap::get` over the association-list model of the directory. -/
def lookup : List (PublicKey × Sink) → PublicKey → Option Sink
  | [], _ => none
  | (k, v) :: rest, key => if k = key then some v else lookup rest key

/-- `HashMap::insert` over the association-list model: replace the entry if
the key is present, append it otherwise. -/
def map_insert : List (PublicKey × Sink) → PublicKey → Sink →
    List (PublicKey × Sink)
  | [], k, v => [(k, v)]
  | (k', v') :: rest, k, v =>
      if k' = k then (k, v) :: rest else (k', v') :: map_insert rest k v

/-- `WriteLoopCommands`: the per-connection writer task's command set. -/
inductive WriteLoopCommands where
  | SendPacket (source target : PublicKey) (payload : List Nat)
  | PeerPresent (pk : PublicKey)
  | Stop
  deriving DecidableEq, Repr

/-- `DerpService`: the clients directory (`peers_sinks`), the mesh directory,
and the server mesh key. The command channel sender is implicit. -/
structure DerpService where
  peers_sinks : List (PublicKey × Sink)
  mesh : List (PublicKey × Sink)
  meshkey : Option String
  deriving DecidableEq, Repr

/-- `ServiceCommand`: the routing service's command-channel message set. -/
inductive ServiceCommand where
  | Stop
  | SendPacket (source target : PublicKey) (payload : List Nat)
  | SubscribeForPeerChanges (pk : PublicKey) (sink : Sink)
  | PeerPresent (pk : PublicKey) (sink : Sink)
  deriving DecidableEq, Repr

/-- The state constructed by `DerpService::new` before any mesh client is
started: both directories empty, the configured mesh key stored. -/
def DerpService.new (meshkey : Option String) : DerpService :=
  ⟨[], [], meshkey⟩

/-- Outcome of one iteration of `command_loop`: continue with a new state and
a list of `(sink, command)` channel sends, return `Ok` (on `_Stop` or channel
closure), or return `Err` (the `?` on a failed sink send), carrying the state
the loop leaves behind. -/
inductive LoopStep where
  | cont (st : DerpService) (out : List (Sink × WriteLoopCommands))
  | exitOk
  | exitErr (st : DerpService)
  deriving DecidableEq, Repr

/-- One iteration of `command_loop` on a received command (`none` means the
command channel is closed). `alive sink` tells whether that sink's receiver
still exists; a send to a dead sink is the error case of `sink.send(..).await`.
Sends performed by spawned notifier tasks (`notify_about_all_clients`) only log
failures, so they are recorded in the output list unconditionally. -/
def command_loop_step (alive : Sink → Bool) (st : DerpService) :
    Option ServiceCommand → LoopStep
  | some (.SendPacket source target payload) =>
    match lookup st.peers_sinks target with
    | none => .cont st []
    | some sink =>
      if alive sink then
        .cont st [(sink, .SendPacket source target payload)]
      else
        .exitErr st
  | some (.SubscribeForPeerChanges mesh_peer_pk mesh_sink) =>
    let st' : DerpService := { st with mesh := map_insert st.mesh mesh_peer_pk mesh_sink }
    let current_peers : List PublicKey :=
      (st'.peers_sinks.map Prod.fst).filter fun pk => (lookup st'.mesh pk).isNone
    .cont st' (current_peers.map fun pk => (mesh_sink, WriteLoopCommands.PeerPresent pk))
  | some (.PeerPresent pk sink) =>
    match lookup st.peers_sinks pk with
    | some _ => .cont st []
    | none => .cont { st with peers_sinks := map_insert st.peers_sinks pk sink } []
  | some .Stop => .exitOk
  | none => .exitOk

/-- The state after a successful registration: the client's sink inserted
into `peers_sinks` (overwriting any previous entry for the key). -/
def reg_state (st : DerpService) (client_pk : PublicKey) (sink : Sink) :
    DerpService :=
  { st with peers_sinks := map_insert st.peers_sinks client_pk sink }

/-- The sends performed by `notify_all_mesh_peers`: one `PeerPresent` per
current mesh entry, on that entry's sink. -/
def mesh_notifications (st : DerpService) (client_pk : PublicKey) :
    List (Sink × WriteLoopCommands) :=
  st.mesh.map fun p => (p.2, WriteLoopCommands.PeerPresent client_pk)

/-- `DerpService::add_new_client`: resolve mesh admission from the server and
client mesh keys (`bail!` and `ensure!` are the error cases, taken before any
mutation), insert the new client's sink, and notify all mesh peers. Returns
the new state, the client's `can_mesh`, and the notification sends. -/
def DerpService.add_new_client (st : DerpService) (client_pk : PublicKey)
    (meshkey : Option String) (sink : Sink) :
    Except String (DerpService × Bool × List (Sink × WriteLoopCommands)) :=
  match st.meshkey, meshkey with
  | none, none =>
      .ok (reg_state st client_pk sink, false, mesh_notifications st client_pk)
  | none, some _ =>
      .error "client tried to mesh with a server that cannot mesh"
  | some _, none =>
      .ok (reg_state st client_pk sink, false, mesh_notifications st client_pk)
  | some server_meshkey, some client_meshkey =>
      if server_meshkey = client_meshkey then
        .ok (reg_state st client_pk sink, true, mesh_notifications st client_pk)
      else
        .error "client tried to mesh with a wrong key"

/-! ## Connection worker (dersp/src/client.rs) -/

/-- A framed message handed to the reader by `DerpReader::get_next_message`:
the classified frame type and the complete frame bytes (header included). -/
structure Message where
  ty : FrameType
  buffer : List Nat
  deriving DecidableEq, Repr

/-- Outcome of handling one message in `Client::read_loop`: enqueue a service
command (or nothing), or leave the loop with an error (`Decode error`, or the
`todo!()` panic on an unhandled frame type). -/
inductive ReadStep where
  | emit (cmd : Option ServiceCommand)
  | fail
  deriving DecidableEq, Repr

/-- One iteration of `Client::read_loop` on a received message. On
`WatchConns` without `can_mesh` the source only carries a
`TODO: close this connection` comment and falls through, emitting nothing. -/
def Client.read_loop_step (pk : PublicKey) (can_mesh : Bool) (our_sink : Sink)
    (msg : Message) : ReadStep :=
  match msg.ty with
  | .SendPacket =>
    match Frame.decode SendPacket.decode msg.buffer with
    | some (f, _) =>
        .emit (some (.SendPacket pk f.inner.target f.inner.payload))
    | none => .fail
  | .WatchConns =>
    if can_mesh then .emit (some (.SubscribeForPeerChanges pk our_sink))
    else .emit none
  | .PeerPresent =>
    match Frame.decode PeerPresent.decode msg.buffer with
    | some (f, _) => .emit (some (.PeerPresent f.inner.public_key our_sink))
    | none => .fail
  | _ => .fail

/-- Outcome of one iteration of `Client::write_loop`: bytes written to the
socket, a clean exit (`_Stop` or closed queue), or a failure (a write error,
an encode error, or the `todo!()` on a non-mesh forward). -/
inductive WriteStep where
  | wrote (bytes : List Nat)
  | exitOk
  | failed
  deriving DecidableEq, Repr

/-- One iteration of `Client::write_loop` on a received command (`none` means
every sender to the queue is gone). Note that the `(_, false)` arm emits a
`RecvPacket` whose key field is `target` — the destination key — not
`source`. -/
def Client.write_loop_step (pk : PublicKey) (can_mesh : Bool) :
    Option WriteLoopCommands → WriteStep
  | some (.SendPacket source target payload) =>
    match can_mesh, decide (target = pk) with
    | true, false =>
      match Frame.encode ForwardPacket.encode
          ⟨.ForwardPacket, ⟨source, target, payload⟩⟩ with
      | some bytes => .wrote bytes
      | none => .failed
    | _, true =>
      match Frame.encode RecvPacket.encode
          ⟨.RecvPacket, ⟨target, payload⟩⟩ with
      | some bytes => .wrote bytes
      | none => .failed
    | false, false => .failed
  | some (.PeerPresent peer) =>
    match Frame.encode PeerPresent.encode ⟨.PeerPresent, ⟨peer⟩⟩ with
    | some bytes => .wrote bytes
    | none => .failed
  | some .Stop => .exitOk
  | none => .exitOk

/-! ## Handshake: client info (dersp/src/proto/data.rs, dersp/src/proto/mod.rs) -/

/-- The JSON payload carried inside a `ClientInfo` ciphertext. -/
structure ClientInfoPayload where
  version : Nat
  meshkey : String
  deriving DecidableEq, Repr

/-- `CompleteClientInfo`: the decoded `ClientInfo` with its decrypted
payload. -/
structure CompleteClientInfo where
  public_key : PublicKey
  nonce : List Nat
  payload : ClientInfoPayload
  deriving DecidableEq, Repr

/-- `ClientInfo::complete`. The `SalsaBox` decryption (spec-designated
black-box crypto, and `crypto.rs` is absent from `src/`) is modelled by the
`decrypted` argument (`none` = decrypt failure), and the external
`serde_json::from_slice` by the `parse` oracle (`none` = malformed JSON).
Everything after those two calls is the source's own code: it constructs
`CompleteClientInfo` from the parsed payload without validating any of its
fields. -/
def ClientInfo.complete (ci : ClientInfo) (decrypted : Option (List Nat))
    (parse : List Nat → Option ClientInfoPayload) :
    Option CompleteClientInfo :=
  match decrypted with
  | none => none
  | some plain_text =>
    match parse plain_text with
    | none => none
    | some payload => some ⟨ci.public_key, ci.nonce, payload⟩

/-- The tail of `read_client_info`: the handshake result built from a
completed client info — the client key, and the mesh key with the empty
string mapped to `None`. -/
def read_client_info_result (info : CompleteClientInfo) :
    PublicKey × Option String :=
  (info.public_key,
   if info.payload.meshkey = "" then none else some info.payload.meshkey)

/-! ## Concrete values used by witnesses and counterexamples -/

/-- A frame type is known when it is not the catch-all variant. -/
def FrameType.known (ft : FrameType) : Prop :=
  ∀ b, ft ≠ FrameType.Unkonow b

/-- The magic prefix bytes `DERP` + the key emoji. -/
def magic_bytes : List Nat := [0x44, 0x45, 0x52, 0x50, 0xF0, 0x9F, 0x94, 0x91]

def key0 : PublicKey := List.replicate 32 0

def keyA : PublicKey := List.replicate 32 1

def keyB : PublicKey := List.replicate 32 2

def nonce0 : List Nat := List.replicate 24 0

/-- The ASCII bytes of the two-byte payload used in spec scenario 3. -/
def payload_hi : List Nat := [104, 105]

/-- The wire bytes of `SendPacket` from the spec scenario: tag `0x04`, length
`0x21`, target `B`, payload. -/
def sp_frame_bytes : List Nat := [4] ++ encode_u32 34 ++ keyB ++ payload_hi

/-- The wire bytes of an empty-body `WatchConns` frame. -/
def watch_frame_bytes : List Nat := [0x10] ++ encode_u32 0

/-- A service with clients `A` (sink 1) and `B` (sink 2) registered. -/
def st_ab : DerpService := ⟨[(keyA, 1), (keyB, 2)], [], none⟩

/-- A service whose clients directory is empty but whose mesh directory
holds `B`. -/
def st_mesh_only : DerpService := ⟨[], [(keyB, 7)], none⟩

/-- A service holding only client `B` on sink 3. -/
def st_b3 : DerpService := ⟨[(keyB, 3)], [], none⟩

/-- The state after registering mesh-capable client `A` on a server with mesh
key `mk`. -/
def st_reg_a : DerpService := ⟨[(keyA, 1)], [], some "mk"⟩

/-- The state after `A`, already a registered client, subscribes as a mesh
peer: its key sits in both directories. -/
def st_overlap : DerpService := ⟨[(keyA, 1)], [(keyA, 1)], some "mk"⟩

/-- A sample received `ClientInfo`. -/
def ci_sample : ClientInfo := ⟨keyA, nonce0, [9, 9]⟩

/-! ## Codec helper lemmas -/

lemma decode_vec_u8_eq (l : List Nat) : decode_vec_u8 l = some (l, []) := by
  induction l with
  | nil => rfl
  | cons b rest ih => simp [decode_vec_u8, ih]

lemma fill_buf_prefix {n : Nat} {l : List Nat} (h : l.length = n)
    (rest : List Nat) : fill_buf n (l ++ rest) = some (l, rest) := by
  subst h
  unfold fill_buf
  rw [if_neg]
  · rw [List.take_left, List.drop_left]
  · simp

lemma fill_buf_exact {n : Nat} {l : List Nat} (h : l.length = n) :
    fill_buf n l = some (l, []) := by
  have := fill_buf_prefix h ([] : List Nat)
  rwa [List.append_nil] at this

lemma decode_u32_encode (n : Nat) (h : n < 2 ^ 32) (rest : List Nat) :
    decode_u32 (encode_u32 n ++ rest) = some (n, rest) := by
  simp [encode_u32, decode_u32]
  omega

lemma frametype_decode_encode (ft : FrameType) (hk : FrameType.known ft)
    (rest : List Nat) :
    FrameType.decode (FrameType.encode ft ++ rest) = some (ft, rest) := by
  cases ft
  case Unkonow b => exact absurd rfl (hk b)
  all_goals
    simp [FrameType.encode, FrameType.decode, decode_u8, FrameType.tagByte,
      FrameType.ofByte]

lemma size_wrapper_decode_encode {T : Type}
    (decT : List Nat → Option (T × List Nat)) (inner : List Nat) (v : T)
    (hlen : inner.length < 2 ^ 32) (hdec : decT inner = some (v, [])) :
    size_wrapper_decode decT (encode_u32 inner.length ++ inner) =
      some (v, []) := by
  simp only [size_wrapper_decode, decode_u32_encode inner.length hlen,
    fill_buf_exact rfl, hdec]
  simp

lemma frame_decode_encode {T : Type} (encT : T → List Nat)
    (decT : List Nat → Option (T × List Nat)) (f : Frame T) (bs : List Nat)
    (hk : FrameType.known f.frame_type)
    (hbody : decT (encT f.inner) = some (f.inner, []))
    (henc : Frame.encode encT f = some bs) :
    Frame.decode decT bs = some (f, []) := by
  have hlen : (encT f.inner).length < 2 ^ 32 := by
    rcases Nat.lt_or_ge (encT f.inner).length (2 ^ 32) with h | h
    · exact h
    · exfalso
      have hneg : ¬ (encT f.inner).length < 4294967296 := by omega
      simp [Frame.encode, size_wrapper_encode, hneg] at henc
  have hpos : (encT f.inner).length < 4294967296 := by omega
  have hbs :
      bs = FrameType.encode f.frame_type ++
        (encode_u32 (encT f.inner).length ++ encT f.inner) := by
    simp only [Frame.encode, size_wrapper_encode] at henc
    rw [if_pos (by omega)] at henc
    simp only [Option.some.injEq] at henc
    exact henc.symm
  subst hbs
  simp only [Frame.decode, frametype_decode_encode f.frame_type hk,
    size_wrapper_decode_encode decT (encT f.inner) f.inner hlen hbody]

lemma server_key_body_roundtrip (x : ServerKey) (h8 : x.magic.length = 8)
    (h32 : x.public_key.length = 32) :
    ServerKey.decode (ServerKey.encode x) = some (x, []) := by
  simp only [ServerKey.encode, ServerKey.decode, encode_public_key,
    decode_public_key, fill_buf_prefix h8, fill_buf_exact h32]

lemma client_info_body_roundtrip (x : ClientInfo) (h32 : x.public_key.length = 32)
    (h24 : x.nonce.length = 24) :
    ClientInfo.decode (ClientInfo.encode x) = some (x, []) := by
  simp only [ClientInfo.encode, ClientInfo.decode, encode_public_key,
    decode_public_key, List.append_assoc, fill_buf_prefix h32,
    fill_buf_prefix h24, decode_vec_u8_eq]

lemma server_info_body_roundtrip (x : ServerInfo) :
    ServerInfo.decode (ServerInfo.encode x) = some (x, []) := by
  simp only [ServerInfo.encode, ServerInfo.decode, decode_vec_u8_eq]

lemma send_packet_body_roundtrip (x : SendPacket) (h32 : x.target.length = 32) :
    SendPacket.decode (SendPacket.encode x) = some (x, []) := by
  simp only [SendPacket.encode, SendPacket.decode, encode_public_key,
    decode_public_key, fill_buf_prefix h32, decode_vec_u8_eq]

lemma recv_packet_body_roundtrip (x : RecvPacket) (h32 : x.target.length = 32) :
    RecvPacket.decode (RecvPacket.encode x) = some (x, []) := by
  simp only [RecvPacket.encode, RecvPacket.decode, encode_public_key,
    decode_public_key, fill_buf_prefix h32, decode_vec_u8_eq]

lemma forward_packet_body_roundtrip (x : ForwardPacket)
    (hs : x.source.length = 32) (ht : x.target.length = 32) :
    ForwardPacket.decode (ForwardPacket.encode x) = some (x, []) := by
  simp only [ForwardPacket.encode, ForwardPacket.decode, encode_public_key,
    decode_public_key, List.append_assoc, fill_buf_prefix hs,
    fill_buf_prefix ht, decode_vec_u8_eq]

lemma peer_present_body_roundtrip (x : PeerPresent)
    (h32 : x.public_key.length = 32) :
    PeerPresent.decode (PeerPresent.encode x) = some (x, []) := by
  simp only [PeerPresent.encode, PeerPresent.decode, encode_public_key,
    decode_public_key, fill_buf_exact h32]

lemma watch_conns_body_roundtrip (x : WatchConns) :
    WatchConns.decode (WatchConns.encode x) = some (x, []) := by
  simp only [WatchConns.encode, WatchConns.decode, decode_vec_u8_eq]

lemma lookup_insert (m : List (PublicKey × Sink)) (k : PublicKey) (v : Sink) :
    lookup (map_insert m k v) k = some v := by
  induction m with
  | nil => simp [map_insert, lookup]
  | cons hd tl ih =>
    by_cases h : hd.1 = k
    · simp [map_insert, lookup, h]
    · simp [map_insert, lookup, h, ih]

/-! ## Claim theorems -/

/-- C6: for every frame of a supported type (`ServerKey`, `ClientInfo`,
`ServerInfo`, `SendPacket`, `RecvPacket`, `PeerPresent`, `ForwardPacket`,
`WatchConns`) with a valid body (fixed-width fields of the right length,
a known frame type, an encodable body size), decoding the encoded bytes
yields exactly the original frame: decode(encode(F)) = F. -/
theorem frame_codec_roundtrip :
    (∀ (f : Frame ServerKey) (bs : List Nat), FrameType.known f.frame_type →
      f.inner.magic.length = 8 → f.inner.public_key.length = 32 →
      Frame.encode ServerKey.encode f = some bs →
      Frame.decode ServerKey.decode bs = some (f, []))
    ∧ (∀ (f : Frame ClientInfo) (bs : List Nat), FrameType.known f.frame_type →
      f.inner.public_key.length = 32 → f.inner.nonce.length = 24 →
      Frame.encode ClientInfo.encode f = some bs →
      Frame.decode ClientInfo.decode bs = some (f, []))
    ∧ (∀ (f : Frame ServerInfo) (bs : List Nat), FrameType.known f.frame_type →
      Frame.encode ServerInfo.encode f = some bs →
      Frame.decode ServerInfo.decode bs = some (f, []))
    ∧ (∀ (f : Frame SendPacket) (bs : List Nat), FrameType.known f.frame_type →
      f.inner.target.length = 32 →
      Frame.encode SendPacket.encode f = some bs →
      Frame.decode SendPacket.decode bs = some (f, []))
    ∧ (∀ (f : Frame RecvPacket) (bs : List Nat), FrameType.known f.frame_type →
      f.inner.target.length = 32 →
      Frame.encode RecvPacket.encode f = some bs →
      Frame.decode RecvPacket.decode bs = some (f, []))
    ∧ (∀ (f : Frame PeerPresent) (bs : List Nat), FrameType.known f.frame_type →
      f.inner.public_key.length = 32 →
      Frame.encode PeerPresent.encode f = some bs →
      Frame.decode PeerPresent.decode bs = some (f, []))
    ∧ (∀ (f : Frame ForwardPacket) (bs : List Nat), FrameType.known f.frame_type →
      f.inner.source.length = 32 → f.inner.target.length = 32 →
      Frame.encode ForwardPacket.encode f = some bs →
      Frame.decode ForwardPacket.decode bs = some (f, []))
    ∧ (∀ (f : Frame WatchConns) (bs : List Nat), FrameType.known f.frame_type →
      Frame.encode WatchConns.encode f = some bs →
      Frame.decode WatchConns.decode bs = some (f, [])) := by
  refine ⟨?_, ?_, ?_, ?_, ?_, ?_, ?_, ?_⟩
  · intro f bs hk h8 h32 henc
    exact frame_decode_encode _ _ f bs hk
      (server_key_body_roundtrip f.inner h8 h32) henc
  · intro f bs hk h32 h24 henc
    exact frame_decode_encode _ _ f bs hk
      (client_info_body_roundtrip f.inner h32 h24) henc
  · intro f bs hk henc
    exact frame_decode_encode _ _ f bs hk
      (server_info_body_roundtrip f.inner) henc
  · intro f bs hk h32 henc
    exact frame_decode_encode _ _ f bs hk
      (send_packet_body_roundtrip f.inner h32) henc
  · intro f bs hk h32 henc
    exact frame_decode_encode _ _ f bs hk
      (recv_packet_body_roundtrip f.inner h32) henc
  · intro f bs hk h32 henc
    exact frame_decode_encode _ _ f bs hk
      (peer_present_body_roundtrip f.inner h32) henc
  · intro f bs hk hs ht henc
    exact frame_decode_encode _ _ f bs hk
      (forward_packet_body_roundtrip f.inner hs ht) henc
  · intro f bs hk henc
    exact frame_decode_encode _ _ f bs hk
      (watch_conns_body_roundtrip f.inner) henc

/-- Witness for C6: one concrete round-trip per supported frame type. -/
theorem frame_codec_roundtrip_witness :
    Frame.decode ServerKey.decode ([1] ++ encode_u32 40 ++ magic_bytes ++ key0)
      = some (⟨FrameType.ServerKey, ⟨magic_bytes, key0⟩⟩, [])
    ∧ Frame.decode ClientInfo.decode
        ([2] ++ encode_u32 58 ++ key0 ++ nonce0 ++ [12, 12])
      = some (⟨FrameType.ClientInfo, ⟨key0, nonce0, [12, 12]⟩⟩, [])
    ∧ Frame.decode ServerInfo.decode ([3] ++ encode_u32 0)
      = some (⟨FrameType.ServerInfo, ⟨[]⟩⟩, [])
    ∧ Frame.decode SendPacket.decode sp_frame_bytes
      = some (⟨FrameType.SendPacket, ⟨keyB, payload_hi⟩⟩, [])
    ∧ Frame.decode RecvPacket.decode ([5] ++ encode_u32 34 ++ keyA ++ payload_hi)
      = some (⟨FrameType.RecvPacket, ⟨keyA, payload_hi⟩⟩, [])
    ∧ Frame.decode PeerPresent.decode ([9] ++ encode_u32 32 ++ key0)
      = some (⟨FrameType.PeerPresent, ⟨key0⟩⟩, [])
    ∧ Frame.decode ForwardPacket.decode
        ([10] ++ encode_u32 65 ++ keyA ++ keyB ++ [1])
      = some (⟨FrameType.ForwardPacket, ⟨keyA, keyB, [1]⟩⟩, [])
    ∧ Frame.decode WatchConns.decode ([16] ++ encode_u32 0)
      = some (⟨FrameType.WatchConns, ⟨[]⟩⟩, []) := by
  refine ⟨?_, ?_, ?_, ?_, ?_, ?_, ?_, ?_⟩
  · exact frame_codec_roundtrip.1 _ _ (fun b h => FrameType.noConfusion h)
      rfl rfl rfl
  · exact frame_codec_roundtrip.2.1 _ _ (fun b h => FrameType.noConfusion h)
      rfl rfl rfl
  · exact frame_codec_roundtrip.2.2.1 _ _ (fun b h => FrameType.noConfusion h)
      rfl
  · exact frame_codec_roundtrip.2.2.2.1 _ _ (fun b h => FrameType.noConfusion h)
      rfl rfl
  · exact frame_codec_roundtrip.2.2.2.2.1 _ _
      (fun b h => FrameType.noConfusion h) rfl rfl
  · exact frame_codec_roundtrip.2.2.2.2.2.1 _ _
      (fun b h => FrameType.noConfusion h) rfl rfl
  · exact frame_codec_roundtrip.2.2.2.2.2.2.1 _ _
      (fun b h => FrameType.noConfusion h) rfl rfl rfl
  · exact frame_codec_roundtrip.2.2.2.2.2.2.2 _ _
      (fun b h => FrameType.noConfusion h) rfl

/-- C7: decoding a length-wrapped value bounds a sub-slice of the declared
length and requires the inner decoder to consume it exactly; if the inner
decoder finishes with bytes of the declared length left over, the decode
fails with `DecodeError` (here: `none`) rather than succeeding. -/
theorem size_wrapper_exact_consume {T : Type}
    (dec : List Nat → Option (T × List Nat)) (l r sub rest left : List Nat)
    (size : Nat) (v : T)
    (h1 : decode_u32 l = some (size, r))
    (h2 : fill_buf size r = some (sub, rest))
    (h3 : dec sub = some (v, left))
    (h4 : left ≠ []) :
    size_wrapper_decode dec l = none := by
  simp [size_wrapper_decode, h1, h2, h3, h4]

/-- Witness for C7: declared length 2, inner `u8` decoder consumes one byte
and leaves one: the decode fails. -/
theorem size_wrapper_exact_consume_witness :
    size_wrapper_decode decode_u8 [0, 0, 0, 2, 7, 8] = none :=
  size_wrapper_exact_consume decode_u8 [0, 0, 0, 2, 7, 8] [7, 8] [7, 8] []
    [8] 2 7 (by decide) (by decide) (by decide) (by decide)

/-- C10: `FrameType::get_frame_type` is total over byte buffers: it returns
the matching enumerated variant when the first byte is a recognized tag, and
the `Unkonow` catch-all when the buffer is empty or the first byte is an
unrecognized tag. -/
theorem get_frame_type_total (buf : List Nat) :
    (buf = [] → get_frame_type buf = FrameType.Unkonow 0)
    ∧ (∀ b l, buf = b :: l → b ∈ known_tags →
        get_frame_type buf = FrameType.ofByte b
        ∧ (FrameType.ofByte b).tagByte = b
        ∧ ∀ u, FrameType.ofByte b ≠ FrameType.Unkonow u)
    ∧ (∀ b l, buf = b :: l → b ∉ known_tags →
        get_frame_type buf = FrameType.Unkonow b) := by
  refine ⟨?_, ?_, ?_⟩
  · intro h
    subst h
    rfl
  · intro b l h hb
    subst h
    refine ⟨rfl, ?_, ?_⟩
    · fin_cases hb <;> rfl
    · intro u
      fin_cases hb <;> simp [FrameType.ofByte]
  · intro b l h hb
    subst h
    have hofb : FrameType.ofByte b = FrameType.Unkonow b := by
      simp [known_tags] at hb
      obtain ⟨h1, h2, h3, h4, h5, h6, h7, h8, h9, h10, h11, h12, h13, h14,
        h15⟩ := hb
      simp [FrameType.ofByte, h1, h2, h3, h4, h5, h6, h7, h8, h9, h10, h11,
        h12, h13, h14, h15]
    show FrameType.ofByte b = FrameType.Unkonow b
    exact hofb

/-- Witness for C10: empty buffer, a recognized tag, an unrecognized tag. -/
theorem get_frame_type_total_witness :
    get_frame_type [] = FrameType.Unkonow 0
    ∧ get_frame_type [4, 9] = FrameType.ofByte 4
    ∧ get_frame_type [11] = FrameType.Unkonow 11 := by
  refine ⟨(get_frame_type_total []).1 rfl, ?_, ?_⟩
  · exact ((get_frame_type_total [4, 9]).2.1 4 [9] rfl (by decide)).1
  · exact (get_frame_type_total [11]).2.2 11 [] rfl (by decide)

/-- C3: registration applies the mesh admission table exactly. With no server
mesh key: a keyless client is admitted with can_mesh = false, a client
presenting a key is rejected. With a server mesh key: a keyless client is
admitted with can_mesh = false, an equal key admits with can_mesh = true, a
differing key is rejected. Rejection returns an error before any mutation, so
no client record is created; admission inserts the client's sink under its
key. -/
theorem add_new_client_admission (st : DerpService) (pk : PublicKey)
    (sink : Sink) :
    (st.meshkey = none →
      DerpService.add_new_client st pk none sink =
        .ok (reg_state st pk sink, false, mesh_notifications st pk))
    ∧ (∀ ck, st.meshkey = none →
      ∃ e, DerpService.add_new_client st pk (some ck) sink = .error e)
    ∧ (∀ sk, st.meshkey = some sk →
      DerpService.add_new_client st pk none sink =
        .ok (reg_state st pk sink, false, mesh_notifications st pk))
    ∧ (∀ k, st.meshkey = some k →
      DerpService.add_new_client st pk (some k) sink =
        .ok (reg_state st pk sink, true, mesh_notifications st pk))
    ∧ (∀ sk ck, st.meshkey = some sk → ck ≠ sk →
      ∃ e, DerpService.add_new_client st pk (some ck) sink = .error e)
    ∧ lookup (reg_state st pk sink).peers_sinks pk = some sink := by
  refine ⟨?_, ?_, ?_, ?_, ?_, ?_⟩
  · intro h
    simp [DerpService.add_new_client, h]
  · intro ck h
    exact ⟨"client tried to mesh with a server that cannot mesh",
      by simp [DerpService.add_new_client, h]⟩
  · intro sk h
    simp [DerpService.add_new_client, h]
  · intro k h
    simp [DerpService.add_new_client, h]
  · intro sk ck h hne
    have hns : ¬ (sk = ck) := fun hh => hne hh.symm
    exact ⟨"client tried to mesh with a wrong key",
      by simp [DerpService.add_new_client, h, hns]⟩
  · exact lookup_insert st.peers_sinks pk sink

/-- Witness for C3: all five admission rows at concrete states. -/
theorem add_new_client_admission_witness :
    DerpService.add_new_client (DerpService.new none) keyA none 1 =
      .ok (⟨[(keyA, 1)], [], none⟩, false, [])
    ∧ (∃ e, DerpService.add_new_client (DerpService.new none) keyA
        (some "mk") 1 = .error e)
    ∧ DerpService.add_new_client (DerpService.new (some "mk")) keyA none 1 =
      .ok (⟨[(keyA, 1)], [], some "mk"⟩, false, [])
    ∧ DerpService.add_new_client (DerpService.new (some "mk")) keyA
        (some "mk") 1 = .ok (⟨[(keyA, 1)], [], some "mk"⟩, true, [])
    ∧ (∃ e, DerpService.add_new_client (DerpService.new (some "mk")) keyA
        (some "zz") 1 = .error e)
    ∧ lookup (reg_state (DerpService.new (some "mk")) keyA 1).peers_sinks keyA
        = some 1 := by
  refine ⟨?_, ?_, ?_, ?_, ?_, ?_⟩
  · exact (add_new_client_admission (DerpService.new none) keyA 1).1 rfl
  · exact (add_new_client_admission (DerpService.new none) keyA 1).2.1 "mk" rfl
  · exact (add_new_client_admission (DerpService.new (some "mk")) keyA
      1).2.2.1 "mk" rfl
  · exact (add_new_client_admission (DerpService.new (some "mk")) keyA
      1).2.2.2.1 "mk" rfl
  · exact (add_new_client_admission (DerpService.new (some "mk")) keyA
      1).2.2.2.2.1 "mk" "zz" rfl (by decide)
  · exact (add_new_client_admission (DerpService.new (some "mk")) keyA
      1).2.2.2.2.2

/-- C2 counterexample: destination B has a mesh directory entry (sink 7) and
no clients entry, yet the Send handler enqueues nothing — the mesh directory
is never consulted, contradicting the claimed clients-then-mesh lookup. -/
theorem send_mesh_hit_not_delivered :
    lookup st_mesh_only.mesh keyB = some 7
    ∧ lookup st_mesh_only.peers_sinks keyB = none
    ∧ command_loop_step (fun _ => true) st_mesh_only
        (some (ServiceCommand.SendPacket keyA keyB [1])) =
        LoopStep.cont st_mesh_only [] := by
  refine ⟨by decide, by decide, by decide⟩

/-- C2 amended: the Send handler looks the destination up only in the clients
directory (`peers_sinks`). A hit on a live sink enqueues exactly one Deliver
command on that sink; a miss drops the packet silently with no state change
and no error to the sender, regardless of the mesh directory's contents. -/
theorem send_clients_only (alive : Sink → Bool) (st : DerpService)
    (source target : PublicKey) (payload : List Nat) :
    (∀ sink, lookup st.peers_sinks target = some sink → alive sink = true →
      command_loop_step alive st
          (some (.SendPacket source target payload)) =
        .cont st [(sink, .SendPacket source target payload)])
    ∧ (lookup st.peers_sinks target = none →
      command_loop_step alive st
          (some (.SendPacket source target payload)) = .cont st []) := by
  constructor
  · intro sink h ha
    simp [command_loop_step, h, ha]
  · intro h
    simp [command_loop_step, h]

/-- Witness for C2 (amended): a clients hit delivers to sink 2; a miss with a
mesh-only entry drops. -/
theorem send_clients_only_witness :
    command_loop_step (fun _ => true) st_ab
      (some (ServiceCommand.SendPacket keyA keyB payload_hi)) =
      LoopStep.cont st_ab [(2, WriteLoopCommands.SendPacket keyA keyB payload_hi)]
    ∧ command_loop_step (fun _ => true) st_mesh_only
      (some (ServiceCommand.SendPacket keyA keyB payload_hi)) =
      LoopStep.cont st_mesh_only [] := by
  constructor
  · exact (send_clients_only (fun _ => true) st_ab keyA keyB payload_hi).1 2
      (by decide) rfl
  · exact (send_clients_only (fun _ => true) st_mesh_only keyA keyB
      payload_hi).2 (by decide)

/-- C5 counterexample: destination B's sink is dead; the Send handler's `?`
terminates the command loop with an error, and the dead entry is still in the
directory of the state the loop leaves behind — it is not pruned. -/
theorem dead_sink_terminates_loop :
    lookup st_b3.peers_sinks keyB = some 3
    ∧ command_loop_step (fun _ => false) st_b3
        (some (ServiceCommand.SendPacket keyA keyB [1])) =
        LoopStep.exitErr st_b3 := by
  refine ⟨by decide, by decide⟩

/-- C5 amended: a failed sink send makes the command loop return an error (the
`?` on `sink.send`), with the directory unchanged — the dead entry is not
removed; the loop also ends, cleanly, on a Stop command or closure of the
command channel. -/
theorem send_failure_exits_loop (alive : Sink → Bool) (st : DerpService)
    (source target : PublicKey) (payload : List Nat) (sink : Sink) :
    (lookup st.peers_sinks target = some sink → alive sink = false →
      command_loop_step alive st
          (some (.SendPacket source target payload)) = .exitErr st)
    ∧ command_loop_step alive st (some .Stop) = .exitOk
    ∧ command_loop_step alive st none = .exitOk := by
  refine ⟨?_, rfl, rfl⟩
  intro h ha
  simp [command_loop_step, h, ha]

/-- Witness for C5 (amended): the dead-sink error exit at a concrete state. -/
theorem send_failure_exits_loop_witness :
    command_loop_step (fun _ => false) st_b3
      (some (ServiceCommand.SendPacket keyA keyB [1])) =
      LoopStep.exitErr st_b3 :=
  (send_failure_exits_loop (fun _ => false) st_b3 keyA keyB [1] 3).1
    (by decide) rfl

/-- C4 counterexample: a reachable state has key A in both directories.
Register mesh-capable client A, then process its WatchConns subscription: the
resulting state holds A in `peers_sinks` and in `mesh` simultaneously. -/
theorem clients_mesh_overlap :
    DerpService.add_new_client (DerpService.new (some "mk")) keyA
        (some "mk") 1 = .ok (st_reg_a, true, [])
    ∧ command_loop_step (fun _ => true) st_reg_a
        (some (ServiceCommand.SubscribeForPeerChanges keyA 1)) =
        LoopStep.cont st_overlap []
    ∧ lookup st_overlap.peers_sinks keyA = some 1
    ∧ lookup st_overlap.mesh keyA = some 1 := by
  refine ⟨rfl, by decide, by decide, by decide⟩

/-- C4 amended: the clients and mesh directories are disjoint in the freshly
created service, but the operations do not enforce disjointness: registering
a mesh-capable client and processing its subscription leaves its key present
in both directories at once. -/
theorem disjointness_not_preserved :
    (∀ mk k, lookup (DerpService.new mk).peers_sinks k = none
      ∧ lookup (DerpService.new mk).mesh k = none)
    ∧ DerpService.add_new_client (DerpService.new (some "mk")) keyA
        (some "mk") 1 = .ok (st_reg_a, true, [])
    ∧ command_loop_step (fun _ => true) st_reg_a
        (some (ServiceCommand.SubscribeForPeerChanges keyA 1)) =
        LoopStep.cont st_overlap []
    ∧ lookup st_overlap.peers_sinks keyA = some 1
    ∧ lookup st_overlap.mesh keyA = some 1 := by
  refine ⟨fun mk k => ⟨rfl, rfl⟩, rfl, by decide, by decide, by decide⟩

/-- C1: evaluation at the failing input. A's SendPacket to B flows through the
reader, the service (exactly one Deliver enqueued on B's sink), and B's
writer, which emits exactly one RecvPacket frame — but the frame's 32-byte key
field is B (the destination, the `target` field), not A (the source), against
both the claim and the source's own doc comment for tag 0x05. -/
theorem recv_packet_key_is_target :
    Client.read_loop_step keyA false 1 ⟨FrameType.SendPacket, sp_frame_bytes⟩ =
      ReadStep.emit (some (ServiceCommand.SendPacket keyA keyB payload_hi))
    ∧ command_loop_step (fun _ => true) st_ab
        (some (ServiceCommand.SendPacket keyA keyB payload_hi)) =
        LoopStep.cont st_ab
          [(2, WriteLoopCommands.SendPacket keyA keyB payload_hi)]
    ∧ Client.write_loop_step keyB false
        (some (WriteLoopCommands.SendPacket keyA keyB payload_hi)) =
        WriteStep.wrote ([5] ++ encode_u32 34 ++ keyB ++ payload_hi)
    ∧ (([5] ++ encode_u32 34 ++ keyB ++ payload_hi).drop 5).take 32 = keyB
    ∧ keyB ≠ keyA := by
  refine ⟨by decide, by decide, by decide, by decide, by decide⟩

/-- C8: evaluation at the failing input. A WatchConns frame on a connection
with can_mesh = false is silently ignored — the reader emits nothing and does
not terminate the connection (termination would be `ReadStep.fail`); with
can_mesh = true it enqueues the subscription carrying the connection's own
key and sink. -/
theorem watch_conns_ignored_without_mesh :
    Client.read_loop_step keyA false 5
        ⟨FrameType.WatchConns, watch_frame_bytes⟩ = ReadStep.emit none
    ∧ Client.read_loop_step keyA true 5
        ⟨FrameType.WatchConns, watch_frame_bytes⟩ =
        ReadStep.emit (some (ServiceCommand.SubscribeForPeerChanges keyA 5))
    ∧ ReadStep.emit (none : Option ServiceCommand) ≠ ReadStep.fail := by
  refine ⟨rfl, rfl, by decide⟩

/-- C9 counterexample: a ClientInfo whose ciphertext decrypts and whose JSON
parses to version 3 is accepted — `complete` returns the completed info (no
error) and the handshake tail yields the client key, against the claimed
rejection of any version other than 2. -/
theorem client_info_version_not_checked :
    ClientInfo.complete ci_sample (some [123])
        (fun _ => some ⟨3, ""⟩) = some ⟨keyA, nonce0, ⟨3, ""⟩⟩
    ∧ read_client_info_result ⟨keyA, nonce0, ⟨3, ""⟩⟩ = (keyA, none) := by
  refine ⟨rfl, by simp [read_client_info_result]⟩

/-- C9 amended: `complete` rejects a decrypt failure and malformed JSON (the
parse returning nothing), but performs no validation of the parsed payload:
any version value is accepted. -/
theorem complete_rejects_only_parse_failures (ci : ClientInfo)
    (parse : List Nat → Option ClientInfoPayload) (pt : List Nat)
    (p : ClientInfoPayload) :
    ClientInfo.complete ci none parse = none
    ∧ (parse pt = none → ClientInfo.complete ci (some pt) parse = none)
    ∧ (parse pt = some p →
        ClientInfo.complete ci (some pt) parse =
          some ⟨ci.public_key, ci.nonce, p⟩) := by
  refine ⟨rfl, ?_, ?_⟩
  · intro h
    simp [ClientInfo.complete, h]
  · intro h
    simp [ClientInfo.complete, h]

/-- Witness for C9 (amended): decrypt failure, parse failure, and a parsed
payload, each at concrete inputs. -/
theorem complete_rejects_only_parse_failures_witness :
    ClientInfo.complete ci_sample none (fun _ => none) = none
    ∧ ClientInfo.complete ci_sample (some [1]) (fun _ => none) = none
    ∧ ClientInfo.complete ci_sample (some [1]) (fun _ => some ⟨2, "mk"⟩) =
        some ⟨keyA, nonce0, ⟨2, "mk"⟩⟩ := by
  refine ⟨(complete_rejects_only_parse_failures ci_sample (fun _ => none) [1]
      ⟨2, "mk"⟩).1, ?_, ?_⟩
  · exact (complete_rejects_only_parse_failures ci_sample (fun _ => none) [1]
      ⟨2, "mk"⟩).2.1 rfl
  · exact (complete_rejects_only_parse_failures ci_sample
      (fun _ => some ⟨2, "mk"⟩) [1] ⟨2, "mk"⟩).2.2 rfl
